import Mathlib

/-!
Verification development for the `node-next-registration` repository:
a shallow embedding of the authentication / session subsystem
(credential verification, JWT issuance and validation, the Next.js
route-gate middleware, and the client-side session store), with theorems
settling the frozen claims about it.

Conventions of the embedding:
* Machine time is an `Int` holding seconds since the epoch
  (`Math.floor(Date.now() / 1000)` in the source).
* JSON numbers (the `exp` claim) are modelled as `Int` (whole seconds,
  the values real tokens carry).
* JavaScript string operations (`split`, `startsWith`, `includes`,
  `toLowerCase`) are embedded as structurally recursive functions over
  the string's character list, so that every definition evaluates inside
  the kernel.
* The HMAC-SHA-256 signature of a JWT is modelled ideally: a signed
  token records the algorithm, the claims and the secret it was signed
  with, and signature verification is equality of secrets.  This is the
  standard idealisation of an unforgeable MAC.
* External library primitives that are not repository code
  (`bcrypt.compare`, `Buffer.from(..,'base64')` + `JSON.parse`, `atob` +
  `JSON.parse`) are parameters of the functions that call them.
* Fallible operations return `Option`.
-/

namespace Registration

/-- `PAGE_LINKS` from `registration-ui/src/lib/constants.ts`. -/
def PAGE_LINKS.REGISTER : String := "/register"

/-- `PAGE_LINKS.LOGIN` from `registration-ui/src/lib/constants.ts`. -/
def PAGE_LINKS.LOGIN : String := "/login"

/-- `PAGE_LINKS.PROFILE` from `registration-ui/src/lib/constants.ts`. -/
def PAGE_LINKS.PROFILE : String := "/profile"

/-- `PAGE_LINKS.DASHBOARD` from `registration-ui/src/lib/constants.ts`. -/
def PAGE_LINKS.DASHBOARD : String := "/dashboard"

/-- `TOKENS.ACCESS` from `registration-ui/src/lib/constants.ts`: the name of
the access-token cookie / localStorage key. -/
def TOKENS.ACCESS : String := "accessToken"

/-- `TOKENS.REFRESH` from `registration-ui/src/lib/constants.ts`. -/
def TOKENS.REFRESH : String := "refreshToken"

/-- `RESPONSE_TEXTS.USER.INVALID_CREDENTIALS` from
`registration-api/src/utils/response_texts.ts`. -/
def RESPONSE_TEXTS.USER.INVALID_CREDENTIALS : String := "Invalid credentials"

/-! ## JavaScript string primitives -/

/-- Splits a character list at every occurrence of `sep`
(the word list is never empty, like JavaScript `String.prototype.split`
with a single-character separator: `''.split('.')` is `['']`). -/
def splitChars (sep : Char) : List Char → List (List Char)
  | [] => [[]]
  | ch :: rest =>
    let r := splitChars sep rest
    if ch == sep then [] :: r
    else
      match r with
      | [] => [[ch]]
      | w :: ws => (ch :: w) :: ws

/-- JavaScript `s.split(sep)` for a single-character separator. -/
def jsSplit (sep : Char) (s : String) : List String :=
  (splitChars sep s.data).map List.asString

/-- JavaScript `s.startsWith(pre)`. -/
def jsStartsWith (s pre : String) : Bool :=
  pre.data.isPrefixOf s.data

/-- JavaScript `s.includes(c)` for a single-character needle. -/
def jsIncludes (s : String) (c : Char) : Bool :=
  s.data.contains c

/-- JavaScript `s.toLowerCase()` (ASCII range, which covers the
identifiers at issue). -/
def jsToLowerCase (s : String) : String :=
  (s.data.map Char.toLower).asString

/-- JavaScript `Math.max` on the integers used here. -/
def mathMax (a b : Int) : Int :=
  if a ≤ b then b else a

/-! ## JWT model (`registration-api/src/lib/jwt.ts`) -/

/-- The claim set of a signed token.  `signJwt` is called with a payload
holding an optional `sub`, an optional `username` and an optional `type`
custom claim; the `jsonwebtoken` library then adds `iat` (the signing
time) and `exp = iat + expiresIn`. -/
structure JwtClaims where
  sub : Option String
  username : Option String
  type : Option String
  iat : Int
  exp : Int
deriving DecidableEq, Repr

/-- The caller-supplied custom claims passed to `signJwt`
(`type JwtPayload = Record<string, unknown> & { sub?: string }`;
the two call sites only ever populate `sub`, `username` and `type`). -/
structure JwtPayloadIn where
  sub : Option String := none
  username : Option String := none
  type : Option String := none
deriving DecidableEq, Repr

/-- A signed JWT under the ideal-MAC model: the compact three-part wire
string is abstracted to its header algorithm, its claims, and the secret
that produced the signature. -/
structure SignedJwt where
  alg : String
  claims : JwtClaims
  secret : String
deriving DecidableEq, Repr

/-- `signJwt(payload, secret, ttl)` from `src/lib/jwt.ts`: signs with
`algorithm: 'HS256'` and `expiresIn = Math.floor(ms(ttl) / 1000)` seconds.
`ttlSecs` is that converted seconds value and `now` the signing time. -/
def signJwt (payload : JwtPayloadIn) (secret : String) (ttlSecs : Int)
    (now : Int) : SignedJwt :=
  { alg := "HS256"
    claims :=
      { sub := payload.sub
        username := payload.username
        type := payload.type
        iat := now
        exp := now + ttlSecs }
    secret := secret }

/-- `verifyJwt(token, secret)` from `src/lib/jwt.ts`:
`jwt.verify(token, secret, { algorithms: ['HS256'] })`.  Succeeds iff the
token's algorithm is the single allowed `HS256`, its signature verifies
against `secret` (ideal MAC: the signing secret equals `secret`), and the
token is not expired (`jsonwebtoken` rejects when `now >= exp`).  Returns
the decoded claims, `none` standing for a thrown verification error. -/
def verifyJwt (token : SignedJwt) (secret : String) (now : Int) :
    Option JwtClaims :=
  if token.alg == "HS256" && token.secret == secret
      && decide (now < token.claims.exp) then
    some token.claims
  else
    none

/-! ## Credential verification (`src/services/auth.service.ts`) -/

/-- The internal DB user row (`DbUser` in `auth.service.ts`);
`password` is the stored bcrypt hash. -/
structure DbUser where
  id : String
  name : String
  username : String
  email : String
  password : String
deriving DecidableEq, Repr

/-- `PublicUser` from `auth.service.ts`. -/
structure PublicUser where
  id : String
  name : String
  username : String
  email : String
deriving DecidableEq, Repr

/-- The `DUMMY_HASH` constant of `auth.service.ts`: a precomputed bcrypt
hash compared against when no user record is found. -/
def DUMMY_HASH : String :=
  "$2a$10$JtqYvZbqvB4QzqK4gl0m9e8cZ7pK9D5T1f2o7Q8c5rV5SgU8V5hA2"

/-- Server configuration (`src/config.ts`): the two signing secrets and
the two TTLs, the latter already converted to seconds
(`JWT_ACCESS_TTL` defaults to `'10m'` = 600 s, `JWT_REFRESH_TTL` to
`'7d'` = 604800 s). -/
structure Config where
  JWT_ACCESS_SECRET : String
  JWT_REFRESH_SECRET : String
  JWT_ACCESS_TTL : Int
  JWT_REFRESH_TTL : Int
deriving DecidableEq, Repr

/-- The user lookup of `authenticate`:
`db.query.users.findFirst({ where: or(eq(users.username, identifier),
isEmail ? eq(users.email, emailNorm) : eq(users.username, '__nope__')) })`
with `isEmail = identifier.includes('@')` and
`emailNorm = identifier.toLowerCase()`. -/
def findUserRow (db : List DbUser) (identifier : String) : Option DbUser :=
  let isEmail := jsIncludes identifier '@'
  let emailNorm := jsToLowerCase identifier
  db.find? fun u =>
    u.username == identifier ||
      (if isEmail then u.email == emailNorm else u.username == "__nope__")

/-- The value returned by `authenticate` on any failure:
`{ user: null }` (so `accessToken` and `refreshToken` are absent). -/
structure AuthResult where
  user : Option PublicUser
  accessToken : Option SignedJwt
  refreshToken : Option SignedJwt
deriving DecidableEq, Repr

/-- The uniform negative result `{ user: null }` of `authenticate`. -/
def negativeAuthResult : AuthResult :=
  { user := none, accessToken := none, refreshToken := none }

/-- `authenticate(identifier, password)` from `auth.service.ts`.
`bcompare` stands for the external `bcrypt.compare`.  Besides the result,
the function returns the list of `(password, hash)` pairs on which
`bcrypt.compare` was invoked, mirroring the source's single call site
(`const ok = await bcrypt.compare(password, hashToCheck)` with
`hashToCheck = row?.password ?? DUMMY_HASH`). -/
def authenticate (bcompare : String → String → Bool) (cfg : Config)
    (db : List DbUser) (identifier password : String) (now : Int) :
    AuthResult × List (String × String) :=
  let row := findUserRow db identifier
  let hashToCheck := match row with
    | some r => r.password
    | none => DUMMY_HASH
  let ok := bcompare password hashToCheck
  let compares := [(password, hashToCheck)]
  match row with
  | none => (negativeAuthResult, compares)
  | some r =>
    if !ok then (negativeAuthResult, compares)
    else
      let publicUser : PublicUser :=
        { id := r.id, name := r.name, username := r.username
          email := r.email }
      let accessToken := signJwt
        { sub := some r.id, username := some r.username }
        cfg.JWT_ACCESS_SECRET cfg.JWT_ACCESS_TTL now
      let refreshToken := signJwt
        { sub := some r.id, type := some "refresh" }
        cfg.JWT_REFRESH_SECRET cfg.JWT_REFRESH_TTL now
      ({ user := some publicUser, accessToken := some accessToken
         refreshToken := some refreshToken }, compares)

/-! ## Route gate (`registration-ui/src/middleware.ts`) -/

/-- The JSON payload obtained by base64url-decoding the middle part of a
JWT and `JSON.parse`-ing it, restricted to the one field the gate reads:
`exp` is `some e` when the payload carries a numeric `exp` claim of value
`e` (`typeof payload?.exp === 'number'`), `none` when it carries no
numeric `exp` claim. -/
structure DecodedPayload where
  exp : Option Int
deriving DecidableEq, Repr

/-- JavaScript string truthiness for an optional cookie value:
`!!token` is `true` exactly for a present, non-empty string. -/
def truthy (o : Option String) : Bool :=
  match o with
  | none => false
  | some s => s != ""

/-- `isExpiredJwt(token)` from `middleware.ts`.  `decode` stands for the
external `Buffer.from(.., 'base64').toString('utf8')` + `JSON.parse`
pipeline applied to the (base64url-normalised) middle part; it returns
`none` when `JSON.parse` throws, which the `catch` turns into `true`.
`now` is `Math.floor(Date.now() / 1000)`.
Mirrors the source: absent or empty (falsy) token → `true`; a token that
does not split on `'.'` into exactly three parts → `true`; undecodable
payload → `true`; payload without a numeric `exp` → `false`; otherwise
expired iff `exp <= now`.  The third (signature) part is never used. -/
def isExpiredJwt (decode : String → Option DecodedPayload) (now : Int)
    (token : Option String) : Bool :=
  match token with
  | none => true
  | some t =>
    if t == "" then true
    else
      match jsSplit '.' t with
      | [_h, p, _s] =>
        match decode p with
        | none => true
        | some payload =>
          match payload.exp with
          | none => false
          | some e => decide (e ≤ now)
      | _ => true

/-- The parts of a `NextRequest` the middleware reads: the URL's
`pathname`, its raw `search` string (`''` when there is no query),
whether `searchParams.has('next')`, and the two token cookies. -/
structure MwRequest where
  pathname : String
  search : String
  hasNext : Bool
  access : Option String
  refresh : Option String
deriving DecidableEq, Repr

/-- The outcome of the middleware: pass the request through
(`NextResponse.next()`), redirect to the login page with the given value
set as the `next` query parameter, or redirect to the dashboard with the
query cleared. -/
inductive MwAction where
  | next
  | redirectLogin (nextParam : String)
  | redirectDashboard
deriving DecidableEq, Repr

/-- The response produced by the middleware: its action plus which of the
two token cookies the response deletes (`res.cookies.delete(..)`). -/
structure MwResponse where
  action : MwAction
  deleteAccess : Bool
  deleteRefresh : Bool
deriving DecidableEq, Repr

/-- The pass-through response `NextResponse.next()` with no cookie
deletions. -/
def passResponse : MwResponse :=
  { action := .next, deleteAccess := false, deleteRefresh := false }

/-- `isProtected` from `middleware.ts`:
`pathname.startsWith(PAGE_LINKS.DASHBOARD) ||
pathname.startsWith(PAGE_LINKS.PROFILE)`. -/
def isProtectedPath (pathname : String) : Bool :=
  jsStartsWith pathname PAGE_LINKS.DASHBOARD ||
    jsStartsWith pathname PAGE_LINKS.PROFILE

/-- `isAuthPage` from `middleware.ts`:
`pathname === PAGE_LINKS.LOGIN || pathname === PAGE_LINKS.REGISTER`. -/
def isAuthPagePath (pathname : String) : Bool :=
  pathname == PAGE_LINKS.LOGIN || pathname == PAGE_LINKS.REGISTER

/-- `middleware(req)` from `registration-ui/src/middleware.ts`.
The branches mirror the source in order:
1. protected path and not authed → redirect to `/login` with
   `next = pathname + (search || '')`, deleting the access cookie when
   the cookie was (truthily) present and the refresh cookie always;
2. auth page with a `next` parameter → pass through, deleting the access
   cookie when present and the refresh cookie always;
3. auth page, authed, no `next` → redirect to the dashboard;
4. otherwise → pass through. -/
def middleware (decode : String → Option DecodedPayload) (now : Int)
    (req : MwRequest) : MwResponse :=
  let token := req.access
  let isProtected := isProtectedPath req.pathname
  let isAuthPage := isAuthPagePath req.pathname
  let hasNext := req.hasNext
  let authed := truthy token && !isExpiredJwt decode now token
  if isProtected && !authed then
    { action := .redirectLogin (req.pathname ++ req.search)
      deleteAccess := truthy token
      deleteRefresh := true }
  else if isAuthPage && hasNext then
    { action := .next
      deleteAccess := truthy token
      deleteRefresh := true }
  else if isAuthPage && authed && !hasNext then
    { action := .redirectDashboard
      deleteAccess := false
      deleteRefresh := false }
  else
    passResponse

/-- The request's cookie jar after the browser applies the response's
cookie deletions. -/
structure CookieJar where
  access : Option String
  refresh : Option String
deriving DecidableEq, Repr

/-- Applies a middleware response's cookie deletions to the request's
cookies. -/
def applyResponse (req : MwRequest) (res : MwResponse) : CookieJar :=
  { access := if res.deleteAccess then none else req.access
    refresh := if res.deleteRefresh then none else req.refresh }

/-- A cookie jar holds no token materialization when neither cookie
carries a (truthy) token value. -/
def clearedJar (jar : CookieJar) : Bool :=
  !truthy jar.access && !truthy jar.refresh

/-! ## Client session store (`registration-ui/src/services/user.service.ts`,
embedded in `http.client.ts`) -/

/-- The client-side session state across its two storage surfaces:
the `localStorage` entries under `TOKENS.ACCESS` / `TOKENS.REFRESH` and
the identically named (non-httpOnly) cookies. -/
structure ClientState where
  lsAccess : Option String
  lsRefresh : Option String
  ckAccess : Option String
  ckRefresh : Option String
deriving DecidableEq, Repr

/-- `getToken()` of `UserServiceImpl`: reads
`localStorage.getItem(TOKENS.ACCESS)`. -/
def getToken (s : ClientState) : Option String :=
  s.lsAccess

/-- `clearToken()` of `UserServiceImpl`: removes both localStorage
entries and rewrites both cookies with `Max-Age=0`, which the browser
treats as removal.  Total: the source has no failure path. -/
def clearToken (s : ClientState) : ClientState :=
  let s1 := { s with lsAccess := none }
  let s2 := { s1 with lsRefresh := none }
  let s3 := { s2 with ckAccess := none }
  { s3 with ckRefresh := none }

/-- The `maxAgeFromJwt` IIFE inside `UserServiceImpl.login`:
takes `accessToken.split('.')[1]` (no three-part check; a missing index
makes `atob` throw, landing in the `catch`), decodes and parses it
(`decodeClient`, standing for `atob` + `JSON.parse`, `none` = throw),
then, when `payload?.exp` is truthy (a nonzero numeric claim in this
payload model), returns `Math.max(0, exp - Math.floor(Date.now()/1000))`
— always a finite number here, so the `Number.isFinite` guard passes.
A falsy or unreadable `exp` yields `none`. -/
def maxAgeFromJwt (decodeClient : String → Option DecodedPayload)
    (now : Int) (accessToken : String) : Option Int :=
  match (jsSplit '.' accessToken)[1]? with
  | none => none
  | some p =>
    match decodeClient p with
    | none => none
    | some payload =>
      match payload.exp with
      | none => none
      | some e =>
        if e == 0 then none
        else some (mathMax 0 (e - now))

/-- The cookie lifetimes `UserServiceImpl.login` writes after a
successful login: `Max-Age` of the access cookie and of the refresh
cookie. -/
structure SessionCookieAges where
  accessMaxAge : Int
  refreshMaxAge : Int
deriving DecidableEq, Repr

/-- The cookie-writing step of `UserServiceImpl.login`:
`maxAge = maxAgeFromJwt ?? 60 * 60` for the access cookie and the fixed
`60 * 60 * 24 * 30` for the refresh cookie.  The `refreshToken` argument
is only interpolated into the cookie's value in the source; its claims
are never consulted for the lifetime. -/
def loginCookieAges (decodeClient : String → Option DecodedPayload)
    (now : Int) (accessToken refreshToken : String) : SessionCookieAges :=
  let _ := refreshToken
  { accessMaxAge := (maxAgeFromJwt decodeClient now accessToken).getD (60 * 60)
    refreshMaxAge := 60 * 60 * 24 * 30 }

/-! ## Login route (`registration-api/src/routes/auth.route.ts`) -/

/-- The body schema of the login route (`loginSchema` in
`auth.route.ts`): `identifier` a string of `minLength 1`, `password` a
string of `minLength 6`. -/
def loginSchemaValid (identifier password : String) : Bool :=
  identifier.length ≥ 1 && password.length ≥ 6

/-- The HTTP reply of the login route: status code and the JSON body
(`success`, optional `error` string, optional `data` of user plus token
pair). -/
structure LoginReply where
  status : Nat
  success : Bool
  error : Option String
  data : Option (PublicUser × SignedJwt × SignedJwt)
deriving DecidableEq, Repr

/-- The uniform failure reply of the login route:
`reply.code(401).send({ success: false,
error: RESPONSE_TEXTS.USER.INVALID_CREDENTIALS })`. -/
def invalidCredentialsReply : LoginReply :=
  { status := 401, success := false
    error := some RESPONSE_TEXTS.USER.INVALID_CREDENTIALS, data := none }

/-- The login route handler of `auth.route.ts` (with
`attachValidation: true`, schema failure reaches the handler as
`validationError` and yields the generic 401; then `authenticate` runs
and any missing `user` / `accessToken` / `refreshToken` yields the same
generic 401; otherwise a 200 with the data). -/
def authLoginRoute (bcompare : String → String → Bool) (cfg : Config)
    (db : List DbUser) (identifier password : String) (now : Int) :
    LoginReply :=
  if !loginSchemaValid identifier password then
    invalidCredentialsReply
  else
    let result := (authenticate bcompare cfg db identifier password now).1
    match result.user, result.accessToken, result.refreshToken with
    | some u, some a, some r =>
      { status := 200, success := true, error := none
        data := some (u, a, r) }
    | _, _, _ => invalidCredentialsReply

/-! ## Concrete fixtures used by witnesses and counterexamples -/

/-- A concrete payload decoder: `"p"` parses to a payload with
`exp = 100`, `"q"` to a payload with no numeric `exp` claim, everything
else fails to parse. -/
def decodeEx : String → Option DecodedPayload := fun s =>
  if s == "p" then some { exp := some 100 }
  else if s == "q" then some { exp := none }
  else none

/-- A concrete payload decoder whose `"p"` parses to a payload with
`exp = 0`. -/
def decodeExpZero : String → Option DecodedPayload := fun s =>
  if s == "p" then some { exp := some 0 } else none

/-- A concrete server configuration (32-byte secrets, the default
`10m` / `7d` TTLs in seconds). -/
def cfgEx : Config where
  JWT_ACCESS_SECRET := "access-secret-0123456789abcdef01"
  JWT_REFRESH_SECRET := "refresh-secret-0123456789abcdef0"
  JWT_ACCESS_TTL := 600
  JWT_REFRESH_TTL := 604800

/-- A concrete stored user row. -/
def janeRow : DbUser where
  id := "u1"
  name := "Jane"
  username := "jdoe"
  email := "j@x.com"
  password := "bcrypt-of-secret1"

/-- A one-row user store. -/
def dbEx : List DbUser := [janeRow]

/-- A concrete model of `bcrypt.compare`: a hash matches exactly the
password it tags. -/
def bcryptEx : String → String → Bool := fun p h => h == "bcrypt-of-" ++ p

/-! ## Helper lemmas -/

theorem authenticate_rowNone {bcompare : String → String → Bool}
    {cfg : Config} {db : List DbUser} {identifier password : String}
    {now : Int} (h : findUserRow db identifier = none) :
    authenticate bcompare cfg db identifier password now =
      (negativeAuthResult, [(password, DUMMY_HASH)]) := by
  simp [authenticate, h]

theorem authenticate_badCompare {bcompare : String → String → Bool}
    {cfg : Config} {db : List DbUser} {identifier password : String}
    {now : Int} {r : DbUser} (h : findUserRow db identifier = some r)
    (hc : bcompare password r.password = false) :
    authenticate bcompare cfg db identifier password now =
      (negativeAuthResult, [(password, r.password)]) := by
  simp [authenticate, h, hc]

theorem authenticate_success {bcompare : String → String → Bool}
    {cfg : Config} {db : List DbUser} {identifier password : String}
    {now : Int} {r : DbUser} (h : findUserRow db identifier = some r)
    (hc : bcompare password r.password = true) :
    authenticate bcompare cfg db identifier password now =
      ({ user := some { id := r.id, name := r.name, username := r.username, email := r.email }
         accessToken := some (signJwt
            { sub := some r.id, username := some r.username }
            cfg.JWT_ACCESS_SECRET cfg.JWT_ACCESS_TTL now)
         refreshToken := some (signJwt
            { sub := some r.id, type := some "refresh" }
            cfg.JWT_REFRESH_SECRET cfg.JWT_REFRESH_TTL now) },
       [(password, r.password)]) := by
  simp [authenticate, h, hc]

theorem verifyJwt_signJwt {payload : JwtPayloadIn} {secret : String}
    {ttlSecs now : Int} (httl : 0 < ttlSecs) :
    verifyJwt (signJwt payload secret ttlSecs now) secret now =
      some { sub := payload.sub, username := payload.username
             type := payload.type, iat := now, exp := now + ttlSecs } := by
  simp [verifyJwt, signJwt]
  omega

theorem authPage_cases {p : String} (h : isAuthPagePath p = true) :
    p = PAGE_LINKS.LOGIN ∨ p = PAGE_LINKS.REGISTER := by
  simpa [isAuthPagePath] using h

theorem authPage_not_protected {p : String} (h : isAuthPagePath p = true) :
    isProtectedPath p = false := by
  rcases authPage_cases h with rfl | rfl <;> decide

theorem protected_not_authPage {p : String} (h : isProtectedPath p = true) :
    isAuthPagePath p = false := by
  cases hap : isAuthPagePath p with
  | false => rfl
  | true =>
    rw [authPage_not_protected hap] at h
    exact absurd h (by decide)

theorem middleware_protected_unauthed {decode : String → Option DecodedPayload}
    {now : Int} {req : MwRequest} (hp : isProtectedPath req.pathname = true)
    (ha : (truthy req.access && !isExpiredJwt decode now req.access) = false) :
    middleware decode now req =
      { action := .redirectLogin (req.pathname ++ req.search)
        deleteAccess := truthy req.access
        deleteRefresh := true } := by
  simp [middleware, hp, ha]

theorem middleware_authPage_next {decode : String → Option DecodedPayload}
    {now : Int} {req : MwRequest} (hp : isAuthPagePath req.pathname = true)
    (hn : req.hasNext = true) :
    middleware decode now req =
      { action := .next
        deleteAccess := truthy req.access
        deleteRefresh := true } := by
  simp [middleware, authPage_not_protected hp, hp, hn]

theorem middleware_protected_authed {decode : String → Option DecodedPayload}
    {now : Int} {req : MwRequest} (hp : isProtectedPath req.pathname = true)
    (ha : (truthy req.access && !isExpiredJwt decode now req.access) = true) :
    middleware decode now req = passResponse := by
  simp [middleware, hp, ha, protected_not_authPage hp]

theorem middleware_public_pass {decode : String → Option DecodedPayload}
    {now : Int} {req : MwRequest} (hp : isProtectedPath req.pathname = false)
    (ha : isAuthPagePath req.pathname = false) :
    middleware decode now req = passResponse := by
  simp [middleware, hp, ha]

theorem truthy_none : truthy none = false := rfl

theorem cleared_applyResponse {req : MwRequest} {res : MwResponse}
    (hA : res.deleteAccess = truthy req.access) (hR : res.deleteRefresh = true) :
    clearedJar (applyResponse req res) = true := by
  cases hb : truthy req.access <;>
    simp [clearedJar, applyResponse, hA, hR, hb, truthy_none]

theorem jsSplit_three_ne_empty {t h p s : String}
    (hsplit : jsSplit '.' t = [h, p, s]) : t ≠ "" := by
  intro h0
  subst h0
  simp [jsSplit, splitChars] at hsplit

theorem isExpiredJwt_of_split {decode : String → Option DecodedPayload}
    {now : Int} {t h p s : String} (hsplit : jsSplit '.' t = [h, p, s]) :
    isExpiredJwt decode now (some t) =
      (match decode p with
       | none => true
       | some payload =>
         match payload.exp with
         | none => false
         | some e => decide (e ≤ now)) := by
  have ht : (t == "") = false := by
    simpa using jsSplit_three_ne_empty hsplit
  simp [isExpiredJwt, ht, hsplit]

theorem isExpiredJwt_not_three {decode : String → Option DecodedPayload}
    {now : Int} {t : String} (h3 : (jsSplit '.' t).length ≠ 3) :
    isExpiredJwt decode now (some t) = true := by
  by_cases ht : t = ""
  · simp [isExpiredJwt, ht]
  · have ht' : (t == "") = false := by simpa using ht
    simp only [isExpiredJwt, ht', Bool.false_eq_true, if_false]
    split
    · rename_i h p s heq
      rw [heq] at h3
      simp at h3
    · rfl

theorem string_length_zero {s : String} (h : s.length = 0) : s = "" := by
  cases s with
  | mk data =>
    cases data with
    | nil => rfl
    | cons a l => simp [String.length] at h

theorem jsStartsWith_append (pre suffix : String) :
    jsStartsWith (pre ++ suffix) pre = true := by
  simp [jsStartsWith, String.data_append, List.isPrefixOf_iff_prefix]

theorem isAuthPagePath_login_suffix {suffix : String} (hs : suffix ≠ "") :
    isAuthPagePath (PAGE_LINKS.LOGIN ++ suffix) = false := by
  cases hap : isAuthPagePath (PAGE_LINKS.LOGIN ++ suffix) with
  | false => rfl
  | true =>
    exfalso
    rcases authPage_cases hap with h | h
    · have hl := congrArg String.length h
      rw [String.length_append] at hl
      exact hs (string_length_zero (by omega))
    · have hd := congrArg String.data h
      rw [String.data_append] at hd
      have h1 : (PAGE_LINKS.LOGIN.data ++ suffix.data)[1]? =
          (PAGE_LINKS.REGISTER.data)[1]? := by
        rw [hd]
      rw [List.getElem?_append_left (by decide)] at h1
      exact absurd h1 (by decide)

theorem isAuthPagePath_register_suffix {suffix : String} (hs : suffix ≠ "") :
    isAuthPagePath (PAGE_LINKS.REGISTER ++ suffix) = false := by
  cases hap : isAuthPagePath (PAGE_LINKS.REGISTER ++ suffix) with
  | false => rfl
  | true =>
    exfalso
    rcases authPage_cases hap with h | h
    · have hd := congrArg String.data h
      rw [String.data_append] at hd
      have h1 : (PAGE_LINKS.REGISTER.data ++ suffix.data)[1]? =
          (PAGE_LINKS.LOGIN.data)[1]? := by
        rw [hd]
      rw [List.getElem?_append_left (by decide)] at h1
      exact absurd h1 (by decide)
    · have hl := congrArg String.length h
      rw [String.length_append] at hl
      exact hs (string_length_zero (by omega))

/-! ## Claim theorems -/

/-- **C1** (counterexample).  The claim says verifying a freshly issued
access token yields claims whose kind equals `"access"`.  At a concrete
identity the sign-then-verify round trip succeeds and recovers the
subject `"u1"`, but the token-class (`type`) claim of the access token
is absent (`none`), not `"access"`: only the refresh token carries a
class claim. -/
theorem access_token_lacks_kind_claim :
    (((authenticate bcryptEx cfgEx dbEx "jdoe" "secret1" 0).1.accessToken.bind
        (fun t => verifyJwt t cfgEx.JWT_ACCESS_SECRET 0)).map
        (fun c => (c.sub, c.type))) = some (some "u1", none)
    ∧ (((authenticate bcryptEx cfgEx dbEx "jdoe" "secret1" 0).1.accessToken.bind
        (fun t => verifyJwt t cfgEx.JWT_ACCESS_SECRET 0)).map
        (fun c => c.type)) ≠ some (some "access") := by
  decide

/-- **C1** (amended).  For every identity whose credentials verify,
issuing a token pair and then verifying the returned tokens with their
respective secrets succeeds and yields claims whose subject is that
identity; the access token carries no token-class claim (its custom
claims are `sub` and `username`), while the refresh token carries
`type = "refresh"`. -/
theorem issue_verify_roundtrip_subject
    (bcompare : String → String → Bool) (cfg : Config) (db : List DbUser)
    (identifier password : String) (now : Int) (r : DbUser)
    (hrow : findUserRow db identifier = some r)
    (hok : bcompare password r.password = true)
    (hAttl : 0 < cfg.JWT_ACCESS_TTL) (hRttl : 0 < cfg.JWT_REFRESH_TTL) :
    ((authenticate bcompare cfg db identifier password now).1.accessToken.bind
        (fun t => verifyJwt t cfg.JWT_ACCESS_SECRET now)) =
      some { sub := some r.id, username := some r.username, type := none
             iat := now, exp := now + cfg.JWT_ACCESS_TTL }
    ∧ ((authenticate bcompare cfg db identifier password now).1.refreshToken.bind
        (fun t => verifyJwt t cfg.JWT_REFRESH_SECRET now)) =
      some { sub := some r.id, username := none, type := some "refresh"
             iat := now, exp := now + cfg.JWT_REFRESH_TTL } := by
  rw [authenticate_success hrow hok]
  constructor
  · simpa using verifyJwt_signJwt hAttl
  · simpa using verifyJwt_signJwt hRttl

/-- **C1** witness: the amended round trip at a concrete identity. -/
theorem issue_verify_roundtrip_subject_witness :
    ((authenticate bcryptEx cfgEx dbEx "jdoe" "secret1" 5).1.accessToken.bind
        (fun t => verifyJwt t cfgEx.JWT_ACCESS_SECRET 5)) =
      some { sub := some "u1", username := some "jdoe", type := none
             iat := 5, exp := 605 }
    ∧ ((authenticate bcryptEx cfgEx dbEx "jdoe" "secret1" 5).1.refreshToken.bind
        (fun t => verifyJwt t cfgEx.JWT_REFRESH_SECRET 5)) =
      some { sub := some "u1", username := none, type := some "refresh"
             iat := 5, exp := 604805 } := by
  have h := issue_verify_roundtrip_subject bcryptEx cfgEx dbEx "jdoe" "secret1"
    5 janeRow (by decide) (by decide) (by decide) (by decide)
  exact h

/-- **C2**.  Credential verification performs exactly one secret-hash
comparison on every path — against the stored hash when a row was found,
against the fixed `DUMMY_HASH` otherwise — and both the not-found case
and the found-but-wrong-secret case return the identical negative value
`{ user: null }`. -/
theorem credential_verify_single_compare_uniform
    (bcompare : String → String → Bool) (cfg : Config) (db : List DbUser)
    (identifier password : String) (now : Int) :
    ((authenticate bcompare cfg db identifier password now).2 =
      [(password, match findUserRow db identifier with
        | some r => r.password
        | none => DUMMY_HASH)])
    ∧ (findUserRow db identifier = none →
        (authenticate bcompare cfg db identifier password now).1 =
          negativeAuthResult)
    ∧ (∀ r, findUserRow db identifier = some r →
        bcompare password r.password = false →
        (authenticate bcompare cfg db identifier password now).1 =
          negativeAuthResult) := by
  refine ⟨?_, ?_, ?_⟩
  · cases h : findUserRow db identifier with
    | none => rw [authenticate_rowNone h]
    | some r =>
      cases hc : bcompare password r.password with
      | false => rw [authenticate_badCompare h hc]
      | true => rw [authenticate_success h hc]
  · intro h
    rw [authenticate_rowNone h]
  · intro r h hc
    rw [authenticate_badCompare h hc]

/-- **C2** witness: a not-found identifier and a wrong secret for a
stored identifier produce the same value, each after exactly one compare
(against `DUMMY_HASH` resp. the stored hash). -/
theorem credential_verify_single_compare_uniform_witness :
    (authenticate bcryptEx cfgEx dbEx "ghost" "secret1" 0).1 =
      negativeAuthResult
    ∧ (authenticate bcryptEx cfgEx dbEx "jdoe" "wrongpass" 0).1 =
      negativeAuthResult
    ∧ (authenticate bcryptEx cfgEx dbEx "ghost" "secret1" 0).2 =
      [("secret1", DUMMY_HASH)]
    ∧ (authenticate bcryptEx cfgEx dbEx "jdoe" "wrongpass" 0).2 =
      [("wrongpass", janeRow.password)] := by
  have h1 := credential_verify_single_compare_uniform bcryptEx cfgEx dbEx
    "ghost" "secret1" 0
  have h2 := credential_verify_single_compare_uniform bcryptEx cfgEx dbEx
    "jdoe" "wrongpass" 0
  refine ⟨h1.2.1 (by decide), h2.2.2 janeRow (by decide) (by decide), ?_, ?_⟩
  · rw [h1.1]
    decide
  · rw [h2.1]
    decide

/-- **C3**.  Every failing login request — schema-invalid input, unknown
identifier, or wrong secret — receives the one uniform reply: status
401, `success: false`, the generic `"Invalid credentials"` message, and
no data distinguishing the causes. -/
theorem login_route_uniform_invalid_credentials
    (bcompare : String → String → Bool) (cfg : Config) (db : List DbUser)
    (identifier password : String) (now : Int) :
    (loginSchemaValid identifier password = false →
      authLoginRoute bcompare cfg db identifier password now =
        invalidCredentialsReply)
    ∧ (findUserRow db identifier = none →
      authLoginRoute bcompare cfg db identifier password now =
        invalidCredentialsReply)
    ∧ (∀ r, findUserRow db identifier = some r →
        bcompare password r.password = false →
        authLoginRoute bcompare cfg db identifier password now =
          invalidCredentialsReply)
    ∧ invalidCredentialsReply.status = 401
    ∧ invalidCredentialsReply.success = false
    ∧ invalidCredentialsReply.error =
        some RESPONSE_TEXTS.USER.INVALID_CREDENTIALS := by
  refine ⟨?_, ?_, ?_, rfl, rfl, rfl⟩
  · intro h
    simp [authLoginRoute, h]
  · intro h
    by_cases hv : loginSchemaValid identifier password
    · simp [authLoginRoute, hv, authenticate_rowNone h, negativeAuthResult]
    · simp [authLoginRoute, hv]
  · intro r h hc
    by_cases hv : loginSchemaValid identifier password
    · simp [authLoginRoute, hv, authenticate_badCompare h hc,
        negativeAuthResult]
    · simp [authLoginRoute, hv]

/-- **C3** witness: a schema-invalid password, an unknown identifier and
a wrong secret all receive the identical generic 401 reply. -/
theorem login_route_uniform_invalid_credentials_witness :
    authLoginRoute bcryptEx cfgEx dbEx "jdoe" "short" 0 =
      invalidCredentialsReply
    ∧ authLoginRoute bcryptEx cfgEx dbEx "ghost" "longenough" 0 =
      invalidCredentialsReply
    ∧ authLoginRoute bcryptEx cfgEx dbEx "jdoe" "wrongpass" 0 =
      invalidCredentialsReply := by
  have h1 := login_route_uniform_invalid_credentials bcryptEx cfgEx dbEx
    "jdoe" "short" 0
  have h2 := login_route_uniform_invalid_credentials bcryptEx cfgEx dbEx
    "ghost" "longenough" 0
  have h3 := login_route_uniform_invalid_credentials bcryptEx cfgEx dbEx
    "jdoe" "wrongpass" 0
  exact ⟨h1.1 (by decide), h2.2.1 (by decide),
    h3.2.2.1 janeRow (by decide) (by decide)⟩

/-- Fixture: `/login?next=%2Fdashboard` with a not-yet-expired access
cookie (under `decodeEx`, `"h.p.s"` carries `exp = 100`). -/
def reqLoginNext : MwRequest where
  pathname := "/login"
  search := "?next=%2Fdashboard"
  hasNext := true
  access := some "h.p.s"
  refresh := some "r"

/-- Fixture: `/dashboard` with no cookies. -/
def reqDashNone : MwRequest where
  pathname := "/dashboard"
  search := ""
  hasNext := false
  access := none
  refresh := some "r"

/-- Fixture: a nested protected path with a query string and a stale
access cookie (expired at `now = 100` under `decodeEx`). -/
def reqProfileStale : MwRequest where
  pathname := "/profile/edit"
  search := "?tab=2"
  hasNext := false
  access := some "h.p.s"
  refresh := some "r"

/-- Fixture: a nested protected path with a cookie whose payload decodes
but carries no numeric `exp` claim (`"q"` under `decodeEx`). -/
def reqDashNoExp : MwRequest where
  pathname := "/dashboard/settings"
  search := ""
  hasNext := false
  access := some "h.q.s"
  refresh := none

/-- Fixture: a nested path under `/login`, hence neither protected nor
an auth page. -/
def reqPublic : MwRequest where
  pathname := "/login/reset"
  search := ""
  hasNext := true
  access := some "stale"
  refresh := some "r"

/-- **C4**.  On an auth page (`/login` or `/register`) with a `next`
query parameter the gate passes the request through to render and the
response clears both token cookie materializations (the access deletion
is issued exactly when the cookie held a value, so the resulting jar
holds no token either way) — regardless of the access token's validity,
so the has-next rule takes precedence over the authenticated redirect. -/
theorem authpage_next_renders_and_clears
    (decode : String → Option DecodedPayload) (now : Int) (req : MwRequest)
    (hpage : isAuthPagePath req.pathname = true)
    (hnext : req.hasNext = true) :
    (middleware decode now req).action = .next
    ∧ (middleware decode now req).deleteRefresh = true
    ∧ (middleware decode now req).deleteAccess = truthy req.access
    ∧ clearedJar (applyResponse req (middleware decode now req)) = true := by
  rw [middleware_authPage_next hpage hnext]
  exact ⟨rfl, rfl, rfl, cleared_applyResponse rfl rfl⟩

/-- **C4** witness: `/login?next=%2Fdashboard` with a not-yet-expired
access cookie still renders and both cookies end up cleared. -/
theorem authpage_next_renders_and_clears_witness :
    isExpiredJwt decodeEx 0 reqLoginNext.access = false
    ∧ (middleware decodeEx 0 reqLoginNext).action = .next
    ∧ (middleware decodeEx 0 reqLoginNext).deleteAccess = true
    ∧ (middleware decodeEx 0 reqLoginNext).deleteRefresh = true
    ∧ clearedJar (applyResponse reqLoginNext (middleware decodeEx 0 reqLoginNext)) = true := by
  have h := authpage_next_renders_and_clears decodeEx 0 reqLoginNext
    (by decide) (by decide)
  refine ⟨by decide, h.1, ?_, h.2.1, h.2.2.2⟩
  rw [h.2.2.1]
  decide

/-- **C5**.  On a protected path (`/dashboard` or `/profile` prefix,
nested paths included) with the access cookie absent or flagged expired
by the advisory check, the gate redirects to the login page with
`next = <original path + query>` and the response leaves both token
cookie materializations cleared. -/
theorem protected_unauth_redirects_and_clears
    (decode : String → Option DecodedPayload) (now : Int) (req : MwRequest)
    (hprot : isProtectedPath req.pathname = true)
    (hnoauth : req.access = none ∨ isExpiredJwt decode now req.access = true) :
    middleware decode now req =
      { action := .redirectLogin (req.pathname ++ req.search)
        deleteAccess := truthy req.access
        deleteRefresh := true }
    ∧ clearedJar (applyResponse req (middleware decode now req)) = true := by
  have ha : (truthy req.access && !isExpiredJwt decode now req.access) = false := by
    rcases hnoauth with h | h
    · rw [h, truthy_none]
      rfl
    · rw [h]
      simp
  rw [middleware_protected_unauthed hprot ha]
  exact ⟨rfl, cleared_applyResponse rfl rfl⟩

/-- **C5** witness: `/dashboard` with no cookie redirects to
`/login?next=/dashboard`; nested `/profile/edit?tab=2` with an expired
cookie redirects with the full path-plus-query and both cookies end up
cleared. -/
theorem protected_unauth_redirects_and_clears_witness :
    middleware decodeEx 0 reqDashNone =
      { action := .redirectLogin "/dashboard"
        deleteAccess := false
        deleteRefresh := true }
    ∧ clearedJar (applyResponse reqDashNone (middleware decodeEx 0 reqDashNone)) = true
    ∧ middleware decodeEx 100 reqProfileStale =
      { action := .redirectLogin "/profile/edit?tab=2"
        deleteAccess := true
        deleteRefresh := true }
    ∧ clearedJar (applyResponse reqProfileStale (middleware decodeEx 100 reqProfileStale)) = true := by
  have h1 := protected_unauth_redirects_and_clears decodeEx 0 reqDashNone
    (by decide) (Or.inl (by decide))
  have h2 := protected_unauth_redirects_and_clears decodeEx 100 reqProfileStale
    (by decide) (Or.inr (by decide))
  refine ⟨?_, h1.2, ?_, h2.2⟩
  · rw [h1.1]
    decide
  · rw [h2.1]
    decide

/-- **C6**.  The advisory expiry check treats a missing token, a token
that does not split into three parts, and a token whose payload fails to
decode as expired; a decodable payload with a numeric `exp` claim is
expired exactly when `exp <= now` (no grace or skew window); and the
check never inspects the signature part: any two tokens sharing header
and payload parts get the same verdict. -/
theorem advisory_expiry_check_spec
    (decode : String → Option DecodedPayload) (now : Int) :
    isExpiredJwt decode now none = true
    ∧ (∀ t : String, (jsSplit '.' t).length ≠ 3 →
        isExpiredJwt decode now (some t) = true)
    ∧ (∀ t h p s, jsSplit '.' t = [h, p, s] → decode p = none →
        isExpiredJwt decode now (some t) = true)
    ∧ (∀ t h p s payload e, jsSplit '.' t = [h, p, s] →
        decode p = some payload → payload.exp = some e →
        (isExpiredJwt decode now (some t) = true ↔ e ≤ now))
    ∧ (∀ t₁ t₂ h p s₁ s₂, jsSplit '.' t₁ = [h, p, s₁] →
        jsSplit '.' t₂ = [h, p, s₂] →
        isExpiredJwt decode now (some t₁) = isExpiredJwt decode now (some t₂)) := by
  refine ⟨rfl, ?_, ?_, ?_, ?_⟩
  · intro t h3
    exact isExpiredJwt_not_three h3
  · intro t h p s hs hd
    rw [isExpiredJwt_of_split hs, hd]
  · intro t h p s payload e hs hd he
    rw [isExpiredJwt_of_split hs, hd]
    simp [he]
  · intro t₁ t₂ h p s₁ s₂ h1 h2
    rw [isExpiredJwt_of_split h1, isExpiredJwt_of_split h2]

/-- **C6** witness: each branch at a concrete input, including the exact
boundary `exp = now` counting as expired and signature-independence. -/
theorem advisory_expiry_check_spec_witness :
    isExpiredJwt decodeEx 0 none = true
    ∧ isExpiredJwt decodeEx 0 (some "onepart") = true
    ∧ isExpiredJwt decodeEx 0 (some "h.junk.s") = true
    ∧ (isExpiredJwt decodeEx 100 (some "h.p.s") = true ↔ (100 : Int) ≤ 100)
    ∧ isExpiredJwt decodeEx 0 (some "h.p.sig1") =
        isExpiredJwt decodeEx 0 (some "h.p.sig2") := by
  have h0 := advisory_expiry_check_spec decodeEx 0
  have h100 := advisory_expiry_check_spec decodeEx 100
  exact ⟨h0.1,
    h0.2.1 "onepart" (by decide),
    h0.2.2.1 "h.junk.s" "h" "junk" "s" (by decide) (by decide),
    h100.2.2.2.1 "h.p.s" "h" "p" "s" { exp := some 100 } 100 (by decide)
      (by decide) (by decide),
    h0.2.2.2.2 "h.p.sig1" "h.p.sig2" "h" "p" "sig1" "sig2" (by decide)
      (by decide)⟩

/-- **C8**.  Clearing the session empties both tokens on both storage
surfaces, is a total function (the source has no failure path, also when
nothing was stored), leaves the access-token read returning `null`, and
is idempotent: clearing twice equals clearing once. -/
theorem clear_session_idempotent_total (s : ClientState) :
    clearToken (clearToken s) = clearToken s
    ∧ (clearToken s).lsAccess = none
    ∧ (clearToken s).lsRefresh = none
    ∧ (clearToken s).ckAccess = none
    ∧ (clearToken s).ckRefresh = none
    ∧ getToken (clearToken s) = none :=
  ⟨rfl, rfl, rfl, rfl, rfl, rfl⟩

/-- **C9**.  A token that decodes to a well-formed three-part structure
whose payload lacks a numeric `exp` claim is never considered expired by
the advisory check, at any time; consequently the gate admits its bearer
to any protected route, at any time, passing the request through. -/
theorem no_exp_claim_admitted_unbounded
    (decode : String → Option DecodedPayload) (t h p s : String)
    (payload : DecodedPayload)
    (hsplit : jsSplit '.' t = [h, p, s])
    (hdecode : decode p = some payload)
    (hexp : payload.exp = none) :
    (∀ now : Int, isExpiredJwt decode now (some t) = false)
    ∧ (∀ (now : Int) (req : MwRequest), isProtectedPath req.pathname = true →
        req.access = some t → middleware decode now req = passResponse) := by
  have hfalse : ∀ now : Int, isExpiredJwt decode now (some t) = false := by
    intro now
    rw [isExpiredJwt_of_split hsplit, hdecode]
    simp [hexp]
  refine ⟨hfalse, ?_⟩
  intro now req hprot hacc
  apply middleware_protected_authed hprot
  rw [hacc, hfalse now]
  have ht : t ≠ "" := jsSplit_three_ne_empty hsplit
  simp [truthy, ht]

/-- **C9** witness: a cookie whose payload has no `exp` claim is
admitted to a nested protected route even at a very late clock. -/
theorem no_exp_claim_admitted_unbounded_witness :
    isExpiredJwt decodeEx 999999999 (some "h.q.s") = false
    ∧ middleware decodeEx 999999999 reqDashNoExp = passResponse := by
  have h := no_exp_claim_admitted_unbounded decodeEx "h.q.s" "h" "q" "s"
    { exp := none } (by decide) (by decide) (by decide)
  exact ⟨h.1 999999999, h.2 999999999 reqDashNoExp (by decide) (by decide)⟩

/-- **C10**.  Path classification is asymmetric: any path extending
`/dashboard` or `/profile` is protected, while only the exact `/login`
and `/register` paths are auth pages (proper extensions of them are
not); any path that is neither protected nor an auth page is passed
through unchanged with no cookie deletions, whatever the cookies, query
or clock. -/
theorem path_classification_asymmetry
    (decode : String → Option DecodedPayload) (now : Int) (req : MwRequest)
    (p suffix : String) :
    isProtectedPath (PAGE_LINKS.DASHBOARD ++ suffix) = true
    ∧ isProtectedPath (PAGE_LINKS.PROFILE ++ suffix) = true
    ∧ (isAuthPagePath p = true ↔
        p = PAGE_LINKS.LOGIN ∨ p = PAGE_LINKS.REGISTER)
    ∧ (suffix ≠ "" → isAuthPagePath (PAGE_LINKS.LOGIN ++ suffix) = false)
    ∧ (suffix ≠ "" → isAuthPagePath (PAGE_LINKS.REGISTER ++ suffix) = false)
    ∧ (isProtectedPath req.pathname = false →
        isAuthPagePath req.pathname = false →
        middleware decode now req = passResponse) := by
  refine ⟨?_, ?_, ?_, ?_, ?_, ?_⟩
  · simp [isProtectedPath, jsStartsWith_append]
  · simp [isProtectedPath, jsStartsWith_append]
  · simp [isAuthPagePath]
  · exact fun hs => isAuthPagePath_login_suffix hs
  · exact fun hs => isAuthPagePath_register_suffix hs
  · exact fun hp ha => middleware_public_pass hp ha

/-- **C10** witness: nested protected paths are protected, a nested
path under `/login` is not an auth page, and such a request passes
through unchanged despite stale cookies and a `next` parameter. -/
theorem path_classification_asymmetry_witness :
    isProtectedPath (PAGE_LINKS.DASHBOARD ++ "/settings/x") = true
    ∧ isProtectedPath (PAGE_LINKS.PROFILE ++ "/a") = true
    ∧ isAuthPagePath (PAGE_LINKS.LOGIN ++ "/reset") = false
    ∧ isAuthPagePath (PAGE_LINKS.REGISTER ++ "/x") = false
    ∧ middleware decodeEx 0 reqPublic = passResponse := by
  have h1 := path_classification_asymmetry decodeEx 0 reqPublic
    "/login/reset" "/settings/x"
  have h2 := path_classification_asymmetry decodeEx 0 reqPublic
    "/login/reset" "/a"
  have h3 := path_classification_asymmetry decodeEx 0 reqPublic
    "/login/reset" "/reset"
  have h4 := path_classification_asymmetry decodeEx 0 reqPublic
    "/login/reset" "/x"
  exact ⟨h1.1, h2.2.1, h3.2.2.2.1 (by decide), h4.2.2.2.2.1 (by decide),
    h1.2.2.2.2.2 (by decide) (by decide)⟩

/-- **C7** (counterexample).  The claim says the access cookie's
Max-Age falls back to 3600 only when the `exp` claim cannot be read.  A
token whose payload decodes with the readable claim `exp = 0` gets
Max-Age 3600 from the code, while the claimed formula
`max 0 (exp - now)` yields 0: the code's truthiness test treats a zero
`exp` as unreadable. -/
theorem access_cookie_maxage_exp_zero_counterexample :
    (jsSplit '.' "h.p.s")[1]? = some "p"
    ∧ decodeExpZero "p" = some { exp := some 0 }
    ∧ (loginCookieAges decodeExpZero 100 "h.p.s" "r").accessMaxAge = 3600
    ∧ mathMax 0 (0 - 100) = 0
    ∧ (loginCookieAges decodeExpZero 100 "h.p.s" "r").accessMaxAge ≠
        mathMax 0 (0 - 100) := by
  decide

/-- **C7** (amended).  The session write sets the access cookie's
Max-Age to `max 0 (exp - now)` when the access token's `exp` claim is
readable and nonzero, and falls back to the fixed 3600 seconds when the
claim cannot be read **or equals zero** (a falsy `exp` is treated as
unreadable); the refresh cookie's Max-Age is the fixed 2592000 seconds
(30 days), independent of the refresh token. -/
theorem session_cookie_lifetimes
    (decodeClient : String → Option DecodedPayload) (now : Int)
    (accessToken refreshToken : String) :
    (loginCookieAges decodeClient now accessToken refreshToken).refreshMaxAge
      = 2592000
    ∧ (∀ rt' : String,
        loginCookieAges decodeClient now accessToken refreshToken =
          loginCookieAges decodeClient now accessToken rt')
    ∧ (∀ p payload e, (jsSplit '.' accessToken)[1]? = some p →
        decodeClient p = some payload → payload.exp = some e → e ≠ 0 →
        (loginCookieAges decodeClient now accessToken refreshToken).accessMaxAge
          = mathMax 0 (e - now))
    ∧ ((jsSplit '.' accessToken)[1]? = none →
        (loginCookieAges decodeClient now accessToken refreshToken).accessMaxAge
          = 3600)
    ∧ (∀ p, (jsSplit '.' accessToken)[1]? = some p → decodeClient p = none →
        (loginCookieAges decodeClient now accessToken refreshToken).accessMaxAge
          = 3600)
    ∧ (∀ p payload, (jsSplit '.' accessToken)[1]? = some p →
        decodeClient p = some payload → payload.exp = none →
        (loginCookieAges decodeClient now accessToken refreshToken).accessMaxAge
          = 3600)
    ∧ (∀ p payload, (jsSplit '.' accessToken)[1]? = some p →
        decodeClient p = some payload → payload.exp = some 0 →
        (loginCookieAges decodeClient now accessToken refreshToken).accessMaxAge
          = 3600) := by
  refine ⟨by norm_num [loginCookieAges], fun rt' => rfl, ?_, ?_, ?_, ?_, ?_⟩
  · intro p payload e h1 h2 h3 h4
    simp [loginCookieAges, maxAgeFromJwt, h1, h2, h3, h4]
  · intro h1
    norm_num [loginCookieAges, maxAgeFromJwt, h1]
  · intro p h1 h2
    norm_num [loginCookieAges, maxAgeFromJwt, h1, h2]
  · intro p payload h1 h2 h3
    norm_num [loginCookieAges, maxAgeFromJwt, h1, h2, h3]
  · intro p payload h1 h2 h3
    norm_num [loginCookieAges, maxAgeFromJwt, h1, h2, h3]

/-- **C7** witness: a readable nonzero `exp = 100` at `now = 30` gives
the access cookie Max-Age 70 while the refresh cookie gets 2592000; an
undecodable access token falls back to 3600. -/
theorem session_cookie_lifetimes_witness :
    (loginCookieAges decodeEx 30 "h.p.s" "r").accessMaxAge = 70
    ∧ (loginCookieAges decodeEx 30 "h.p.s" "r").refreshMaxAge = 2592000
    ∧ (loginCookieAges decodeEx 30 "junk" "r").accessMaxAge = 3600 := by
  have h1 := session_cookie_lifetimes decodeEx 30 "h.p.s" "r"
  have h2 := session_cookie_lifetimes decodeEx 30 "junk" "r"
  refine ⟨?_, h1.1, ?_⟩
  · rw [h1.2.2.1 "p" { exp := some 100 } 100 (by decide) (by decide)
      (by decide) (by decide)]
    decide
  · exact h2.2.2.2.1 (by decide)

end Registration
